import Mathlib

/-!
Verification of the retail purchase optimizer (`retailoptimizer.py`).

The Python program formulates a mixed-integer linear program: buy desired
quantities of items ("lures") from several retailers at minimum total cost,
where each retailer charges a flat shipping fee unless the order subtotal
reaches a free-shipping threshold.  We shallowly embed the data model, the
input validation, the big-M computation, the constraint system of the built
model, and the result-extraction functions, and prove the specification
claims about them.  Money and solver values are modelled as rationals.
-/

namespace RetailOpt

/-- Models Python `_format_string`: `re.sub('[^0-9a-z]+', '-', s.lower())` —
lower-case the string, then replace every maximal run of characters outside
`[0-9a-z]` by a single `'-'`. -/
def isAlnumLower (c : Char) : Bool :=
  (('0' ≤ c && c ≤ '9') || ('a' ≤ c && c ≤ 'z'))

/-- Character-list worker for `_format_string`: copy `[0-9a-z]` characters,
collapse each maximal run of other characters to one `'-'`.  The boolean
records whether we are inside a run of non-alphanumeric characters (the `'-'`
for a run is emitted when the run starts). -/
def formatCharsAux : Bool → List Char → List Char
  | _, [] => []
  | inRun, c :: rest =>
    if isAlnumLower c then c :: formatCharsAux false rest
    else if inRun then formatCharsAux true rest
    else '-' :: formatCharsAux true rest

/-- Python `str.lower` on an ASCII character (the repository's item and
retailer names are ASCII). -/
def pyToLower (c : Char) : Char :=
  if ('A' ≤ c && c ≤ 'Z') then Char.ofNat (c.toNat + 32) else c

/-- Models `_format_string` from the source (lower-case, then collapse runs of
non-alphanumeric characters to a single `'-'`). -/
def format_string_model (s : String) : String :=
  ⟨formatCharsAux false (s.data.map pyToLower)⟩

/-- Models `_format_list_strings`. -/
def format_list_strings (l : List String) : List String :=
  l.map format_string_model

/-! ### PuLP dictionary primitives

The source stores its data in dictionaries built by PuLP's `makeDict`
(`dict(zip(keys, values))`, recursively for nested dimensions).  A Python
dict built this way lets a later duplicate key overwrite an earlier one.  We
model a dict by its lookup function (`none` for a missing key). -/

/-- Models PuLP `makeDict` for one index list: `dict(zip(keys, values))`.
A later duplicate key overwrites an earlier one. -/
def makeDict1 {α : Type} (keys : List String) (vals : List α) : String → Option α :=
  (keys.zip vals).foldl
    (fun acc kv => fun x => if x = kv.1 then some kv.2 else acc x)
    (fun _ => none)

/-- Models PuLP `makeDict` for two nested index lists: the outer dict maps a
first-level key to the row dict built from the matching row of values. -/
def makeDict2 {α : Type} (keys1 keys2 : List String) (vals : List (List α)) :
    String → String → Option α :=
  fun l r => (makeDict1 keys1 (vals.map (fun row => makeDict1 keys2 row)) l).bind
    (fun d => d r)

/-- Keys of a Python dict built by inserting `keys` in order: duplicates keep
their first position, so the key list is the input deduplicated keeping first
occurrences.  This models `list(d.keys())` for the dicts built by
`LpVariable.dicts` (one entry per distinct name). -/
def pyDictKeys (keys : List String) : List String :=
  keys.foldl (fun acc k => if k ∈ acc then acc else acc ++ [k]) []

/-! ### Input data and dimension validation (`RetailProblem.__init__`) -/

/-- The raw constructor arguments of `RetailProblem.__init__`.  Quantities and
money amounts are modelled as rationals. -/
structure RetailInput where
  lures : List String
  num_lures_to_buy : List ℚ
  retailers : List String
  prices : List (List ℚ)
  inventory : List (List ℚ)
  shipping : List ℚ
  free_shipping_threshold : List ℚ
  can_buy_extra_lures_if_cheaper : Bool := true
  num_lures_to_buy_is_integer : Bool := true

/-- The five length-alignment failures detected at the top of
`RetailProblem.__init__`; each constructor records which two fields the
raised `ValueError` names. -/
inductive DimensionMismatch where
  | luresNumLures
  | luresPrices
  | luresInventory
  | retailersShipping
  | shippingThreshold
  deriving DecidableEq

/-- The exact message of the `ValueError` the source raises for each
mismatch (including the source's typos). -/
def DimensionMismatch.message : DimensionMismatch → String
  | .luresNumLures => ("Lengths of lures and num_lures_to_buy are inconsistent.")
  | .luresPrices => ("Lengths of lures and prices are inconsistent.")
  | .luresInventory => ("Lenghts of lures and inventory are inconsistent.")
  | .retailersShipping => ("Lengths of retailers and shipping are inconsistent")
  | .shippingThreshold => ("Lenths of retailers and free_shipping_threshold are inconsistent")

/-- Which length inequality a given `DimensionMismatch` value reports. -/
def DimensionMismatch.holds (i : RetailInput) : DimensionMismatch → Prop
  | .luresNumLures => i.num_lures_to_buy.length ≠ i.lures.length
  | .luresPrices => i.prices.length ≠ i.lures.length
  | .luresInventory => i.inventory.length ≠ i.lures.length
  | .retailersShipping => i.shipping.length ≠ i.retailers.length
  | .shippingThreshold => i.free_shipping_threshold.length ≠ i.shipping.length

/-- The input checks at the top of `RetailProblem.__init__`, in source order.
These run before any other construction step. -/
def checkDimensions (i : RetailInput) : Except DimensionMismatch Unit :=
  if i.num_lures_to_buy.length ≠ i.lures.length then .error .luresNumLures
  else if i.prices.length ≠ i.lures.length then .error .luresPrices
  else if i.inventory.length ≠ i.lures.length then .error .luresInventory
  else if i.shipping.length ≠ i.retailers.length then .error .retailersShipping
  else if i.free_shipping_threshold.length ≠ i.shipping.length then
    .error .shippingThreshold
  else .ok ()

/-- All five alignments hold. -/
def fiveAligned (i : RetailInput) : Prop :=
  i.num_lures_to_buy.length = i.lures.length ∧
  i.prices.length = i.lures.length ∧
  i.inventory.length = i.lures.length ∧
  i.shipping.length = i.retailers.length ∧
  i.free_shipping_threshold.length = i.shipping.length

instance (i : RetailInput) : Decidable (fiveAligned i) := by
  unfold fiveAligned; infer_instance

/-! ### The validated problem data (`RetailProblem` state after `__init__`) -/

/-- The state a `RetailProblem` instance holds after construction: the
formatted name lists (which may contain duplicates), the keyed data read
through the `makeDict` dictionaries, the configuration flags, and the big-M
constants.  Dictionary lookups are totalised with a `0` default; the program
only ever reads keys present in the dictionaries. -/
structure RetailProblem where
  lures : List String
  retailers : List String
  num_lures_to_buy : String → ℚ
  prices : String → String → ℚ
  inventory : String → String → ℚ
  shipping : String → ℚ
  free_shipping_threshold : String → ℚ
  can_buy_extra_lures_if_cheaper : Bool
  num_lures_to_buy_is_integer : Bool
  M : String → ℚ
  N : String → ℚ

/-- Models `_compute_big_M_constants`: `M[r] = free_shipping_threshold[r] + 1.0`
and `N[r] = free_shipping_threshold[r] + 1.0 + Σ_l inventory[l][r]` (the sum
accumulated by the source's loop over lures).  The dictionaries over
`retailers` are modelled by the two functions. -/
def compute_big_M_constants (lures : List String) (retailers : List String)
    (free_shipping_threshold : String → ℚ) (inventory : String → String → ℚ) :
    (String → ℚ) × (String → ℚ) :=
  (fun r => free_shipping_threshold r + 1,
   fun r => lures.foldl (fun acc l => acc + inventory l r) (free_shipping_threshold r + 1))

/-- The construction body of `RetailProblem.__init__` after the dimension
checks: format the name lists, build the keyed dictionaries (later duplicate
keys overwrite earlier ones), and compute the big-M constants. -/
def buildProblem (i : RetailInput) : RetailProblem :=
  let lures := format_list_strings i.lures
  let retailers := format_list_strings i.retailers
  let thr := fun r => (makeDict1 retailers i.free_shipping_threshold r).getD 0
  let inv := fun l r => (makeDict2 lures retailers i.inventory l r).getD 0
  { lures := lures
    retailers := retailers
    num_lures_to_buy := fun l => (makeDict1 lures i.num_lures_to_buy l).getD 0
    prices := fun l r => (makeDict2 lures retailers i.prices l r).getD 0
    inventory := inv
    shipping := fun r => (makeDict1 retailers i.shipping r).getD 0
    free_shipping_threshold := thr
    can_buy_extra_lures_if_cheaper := i.can_buy_extra_lures_if_cheaper
    num_lures_to_buy_is_integer := i.num_lures_to_buy_is_integer
    M := (compute_big_M_constants lures retailers thr inv).1
    N := (compute_big_M_constants lures retailers thr inv).2 }

/-- The `(lure, retailer)` combinations `self.lr_combos`
(`[(l, r) for l in self.lures for r in self.retailers]`). -/
def lrCombos (P : RetailProblem) : List (String × String) :=
  P.lures.flatMap (fun l => P.retailers.map (fun r => (l, r)))

/-! ### Model building (`initialize_optimization_problem`)

PuLP's `LpProblem.addConstraint` first assigns the requested name to the
constraint; `setName` sanitizes it by translating each of the characters
`'-'`, `'+'`, `'['`, `']'`, `' '` to `'_'`.  The (default) `noOverlap = 1`
check then compares the sanitized name against the names already stored and
raises `PulpError("overlapping constraint names: " + name)` — with the
sanitized name — on a repeat.  The source names its constraints with
f-strings over the formatted lure/retailer names, so we track the raw names
in source order and apply PuLP's sanitization at the add step. -/

/-- PuLP's name sanitization on one character (`maketrans` of
`'-'`, `'+'`, `'['`, `']'`, `' '` to `'_'`). -/
def pulpSanitizeChar (c : Char) : Char :=
  if c = '-' || c = '+' || c = '[' || c = ']' || c = ' ' then '_' else c

/-- PuLP's name sanitization applied by `setName` when a constraint is
added. -/
def pulpSanitizeName (s : String) : String :=
  ⟨s.data.map pulpSanitizeChar⟩

/-- The raw constraint names `initialize_optimization_problem` requests, in
order: the inventory constraints over `lr_combos`, the total-quantity
constraints per lure, the empty-order constraints per retailer, and the
pay-for-shipping constraints per retailer. -/
def constraintNames (P : RetailProblem) : List String :=
  ((lrCombos P).map (fun p => ("constraint_inventory_") ++ p.1 ++ ("_") ++ p.2))
  ++ (P.lures.map (fun l => ("constraint_total_quantity_") ++ l))
  ++ (P.retailers.map (fun r => ("constraint_empty_orders_no_shipping_fee_") ++ r))
  ++ (P.retailers.map (fun r => ("constraint_pay_for_shipping_") ++ r))

/-- Models adding named constraints one by one through PuLP
`LpProblem.addConstraint` with the default `noOverlap = 1`: each requested
name is sanitized by `setName`, and the first repeated sanitized name raises
`PulpError` carrying that sanitized name. -/
def addConstraintsByName : List String → List String → Except String (List String)
  | seen, [] => .ok seen
  | seen, n :: rest =>
    if pulpSanitizeName n ∈ seen then
      .error (("overlapping constraint names: ") ++ pulpSanitizeName n)
    else addConstraintsByName (seen ++ [pulpSanitizeName n]) rest

/-- Models the constraint-adding phase of `initialize_optimization_problem`:
succeeds exactly when all sanitized constraint names are distinct, otherwise
raises PuLP's overlapping-constraint-names error for the first repeated
sanitized name. -/
def nameCheck (P : RetailProblem) : Except String Unit :=
  (addConstraintsByName [] (constraintNames P)).map (fun _ => ())

/-- Errors `RetailProblem` construction can raise: a `ValueError` from the
dimension checks, or a `PulpError` from adding a duplicate-named constraint
while `__init__` builds the optimization model. -/
inductive ConstructError where
  | dim (e : DimensionMismatch)
  | pulpError (msg : String)
  deriving DecidableEq

/-- Models the whole of `RetailProblem.__init__`: the dimension checks run
first (before any model state exists); then the problem data is built and
`initialize_optimization_problem` adds the named constraints. -/
def construct (i : RetailInput) : Except ConstructError RetailProblem :=
  match checkDimensions i with
  | .error e => .error (.dim e)
  | .ok _ =>
    let P := buildProblem i
    match nameCheck P with
    | .error s => .error (.pulpError s)
    | .ok _ => .ok P

/-! ### Semantics of the built MILP

An assignment gives a value to every decision variable: `quant[l][r]`,
`pay_shipping[r]` and `empty_order[r]`.  `Feasible` collects the variable
bounds and the constraints exactly as `initialize_optimization_problem`
adds them; `objective` is the minimized expression. -/

/-- A value for every decision variable of the model. -/
structure Assignment where
  quant : String → String → ℚ
  pay_shipping : String → ℚ
  empty_order : String → ℚ

/-- A rational is integral (the value of an `LpInteger`/`LpBinary` variable). -/
def IsIntQ (x : ℚ) : Prop := x.den = 1

/-- A binary (`LpBinary`) variable value. -/
def Binary (x : ℚ) : Prop := x = 0 ∨ x = 1

/-- Order subtotal at retailer `r`:
`Σ_l prices[l][r] * quant[l][r]` over the lure list. -/
def subtotal (P : RetailProblem) (a : Assignment) (r : String) : ℚ :=
  (P.lures.map (fun l => P.prices l r * a.quant l r)).sum

/-- Total number of units ordered from retailer `r`:
`Σ_l quant[l][r]` over the lure list. -/
def totalQuant (P : RetailProblem) (a : Assignment) (r : String) : ℚ :=
  (P.lures.map (fun l => a.quant l r)).sum

/-- Total number of units of lure `l` ordered across retailers:
`Σ_r quant[l][r]` over the retailer list. -/
def totalSupplied (P : RetailProblem) (a : Assignment) (l : String) : ℚ :=
  (P.retailers.map (fun r => a.quant l r)).sum

/-- Feasibility for the model `initialize_optimization_problem` builds:
the variable bounds/categories of the `LpVariable.dicts` declarations and
the four constraint families, quantified exactly over the index lists the
source loops range over. -/
structure Feasible (P : RetailProblem) (a : Assignment) : Prop where
  quant_lb : ∀ p ∈ lrCombos P, 0 ≤ a.quant p.1 p.2
  quant_int : P.num_lures_to_buy_is_integer = true →
    ∀ p ∈ lrCombos P, IsIntQ (a.quant p.1 p.2)
  pay_bin : ∀ r ∈ P.retailers, Binary (a.pay_shipping r)
  empty_bin : ∀ r ∈ P.retailers, Binary (a.empty_order r)
  inv_cap : ∀ p ∈ lrCombos P, a.quant p.1 p.2 ≤ P.inventory p.1 p.2
  demand_ge : P.can_buy_extra_lures_if_cheaper = true →
    ∀ l ∈ P.lures, P.num_lures_to_buy l ≤ totalSupplied P a l
  demand_eq : P.can_buy_extra_lures_if_cheaper = false →
    ∀ l ∈ P.lures, totalSupplied P a l = P.num_lures_to_buy l
  empty_link : ∀ r ∈ P.retailers,
    totalQuant P a r ≤ P.N r * (1 - a.empty_order r)
  ship_link : ∀ r ∈ P.retailers,
    subtotal P a r - P.free_shipping_threshold r + P.M r * a.pay_shipping r
      ≥ -(P.N r * a.empty_order r)

/-- The objective `sum_of_purchase_costs`: item costs over `lr_combos` plus
shipping fees over retailers. -/
def objective (P : RetailProblem) (a : Assignment) : ℚ :=
  ((lrCombos P).map (fun p => P.prices p.1 p.2 * a.quant p.1 p.2)).sum
  + (P.retailers.map (fun r => P.shipping r * a.pay_shipping r)).sum

/-- `a` is an optimal solution of the built model: feasible with minimal
objective value among feasible assignments. -/
def OptimalSol (P : RetailProblem) (a : Assignment) : Prop :=
  Feasible P a ∧ ∀ b : Assignment, Feasible P b → objective P a ≤ objective P b

/-! ### Result extraction

After `solve()`, `self.model.status` holds a PuLP status code (`1` =
Optimal, `0` = Not Solved, `-1` = Infeasible, `-2` = Unbounded, `-3` =
Undefined) and every variable carries a solver value (`varValue`).  We pass
the status and the variable values to the extraction functions explicitly.
Python's `int()` conversion truncates toward zero. -/

/-- Models Python `int()` on a (solver) value: truncation toward zero. -/
def pyInt (x : ℚ) : ℤ := if 0 ≤ x then ⌊x⌋ else ⌈x⌉

/-- Rounding to the nearest integer (half up), used to state the spec's
"rounded to the nearest integer" reading of the extraction. -/
def roundNearest (x : ℚ) : ℤ := ⌊x + 1 / 2⌋

/-- Models `convert_model_variable_quantities_to_dict`: when the model status
is Optimal (`1`) it returns the nested quantities dict, whose entry at
`[l][r]` is `int(quant[l][r].varValue)`; on any other status it returns
`None`.  The nested Python dict is modelled by its lookup function on the
lure/retailer keys. -/
def convert_model_variable_quantities_to_dict (status : ℤ)
    (v : String → String → ℚ) : Option (String → String → ℤ) :=
  if status = 1 then some (fun l r => pyInt (v l r)) else none

/-- Python dict assignment `d[k] = v` on an association-list model of the
dict: overwrite the entry in place if the key is present, otherwise append. -/
def dictInsert {α : Type} (d : List (String × α)) (k : String) (v : α) :
    List (String × α) :=
  if d.any (fun kv => kv.1 = k) then
    d.map (fun kv => if kv.1 = k then (k, v) else kv)
  else d ++ [(k, v)]

/-- Models `list_additonal_items_ordered`: iterate the lure list; sum each
lure's solver quantities across retailers; record the lure with its excess
over the desired quantity whenever the bought amount strictly exceeds it.
Note the source performs no status check here. -/
def list_additonal_items_ordered (P : RetailProblem)
    (v : String → String → ℚ) : List (String × ℚ) :=
  P.lures.foldl
    (fun extra_lures l =>
      let bought := (P.retailers.map (fun r => v l r)).sum
      if P.num_lures_to_buy l < bought then
        dictInsert extra_lures l (bought - P.num_lures_to_buy l)
      else extra_lures)
    []

/-- The contents of the two result tables `_generate_dataframes_storing_results`
builds on an Optimal solve: the per-(lure, retailer) integer quantities with a
per-lure total column, and the per-retailer bill rows with the grand total of
the `total_bill` row. -/
structure SolveResults where
  quant : String → String → ℤ
  total_number : String → ℤ
  item_bill : String → ℚ
  shipping_bill : String → ℚ
  total_bill : String → ℚ
  grand_total : ℚ

/-- Models `_generate_dataframes_storing_results`: on status Optimal (`1`)
it builds `df_quantities` (entries `int(varValue)`, plus the `total_number`
column) and `df_bills` (per retailer `shipping_bill = pay_shipping[r].varValue
* shipping[r]`, `item_bill = Σ_l quant[l][r] * prices[l][r]` over the already
truncated quantities, `total_bill = shipping_bill + item_bill`, and the
`total` column summing each row across retailers); on any other status both
dataframes are set to `None`. -/
def generate_dataframes_storing_results (P : RetailProblem) (status : ℤ)
    (v : String → String → ℚ) (payv : String → ℚ) : Option SolveResults :=
  if status = 1 then
    let quant : String → String → ℤ := fun l r => pyInt (v l r)
    let item_bill : String → ℚ :=
      fun r => (P.lures.map (fun l => (quant l r : ℚ) * P.prices l r)).sum
    let shipping_bill : String → ℚ := fun r => payv r * P.shipping r
    let total_bill : String → ℚ := fun r => shipping_bill r + item_bill r
    some
      { quant := quant
        total_number := fun l => (P.retailers.map (fun r => quant l r)).sum
        item_bill := item_bill
        shipping_bill := shipping_bill
        total_bill := total_bill
        grand_total := (P.retailers.map (fun r => total_bill r)).sum }
  else none

/-! ### Helper lemmas -/

theorem mem_lrCombos (P : RetailProblem) (l r : String) :
    (l, r) ∈ lrCombos P ↔ l ∈ P.lures ∧ r ∈ P.retailers := by
  simp [lrCombos]

theorem foldl_add_map_sum {α : Type} (f : α → ℚ) :
    ∀ (ls : List α) (c : ℚ),
      ls.foldl (fun acc x => acc + f x) c = c + (ls.map f).sum
  | [], c => by simp
  | x :: ls, c => by
    simp only [List.foldl_cons, List.map_cons, List.sum_cons]
    rw [foldl_add_map_sum f ls (c + f x)]
    ring

theorem sum_map_eq_zero_of_nonneg {α : Type} (f : α → ℚ) :
    ∀ ls : List α, (∀ x ∈ ls, 0 ≤ f x) → (ls.map f).sum ≤ 0 →
      ∀ x ∈ ls, f x = 0
  | [], _, _, x, hx => by simp at hx
  | y :: ls, hnn, hsum, x, hx => by
    simp only [List.map_cons, List.sum_cons] at hsum
    have hy : 0 ≤ f y := hnn y (by simp)
    have hrest : 0 ≤ (ls.map f).sum :=
      List.sum_nonneg (by rintro z hz; simp only [List.mem_map] at hz
                          obtain ⟨w, hw, rfl⟩ := hz; exact hnn w (by simp [hw]))
    rcases List.mem_cons.mp hx with rfl | hx'
    · linarith
    · exact sum_map_eq_zero_of_nonneg f ls (fun z hz => hnn z (by simp [hz]))
        (by linarith) x hx'

theorem sum_map_le_of_mem {α : Type} (f g : α → ℚ) (c : ℚ) :
    ∀ ls : List α, (∀ x ∈ ls, g x ≤ f x) → ∀ r ∈ ls, g r + c ≤ f r →
      (ls.map g).sum + c ≤ (ls.map f).sum
  | [], _, r, hr, _ => by simp at hr
  | y :: ls, hle, r, hr, hc => by
    simp only [List.map_cons, List.sum_cons]
    rcases List.mem_cons.mp hr with rfl | hr'
    · have hrest : (ls.map g).sum ≤ (ls.map f).sum :=
        List.sum_le_sum (fun x hx => hle x (by simp [hx]))
      linarith
    · have hy : g y ≤ f y := hle y (by simp)
      have ih := sum_map_le_of_mem f g c ls (fun x hx => hle x (by simp [hx])) r hr' hc
      linarith

theorem sum_map_add {α : Type} (f g : α → ℚ) :
    ∀ ls : List α, (ls.map (fun x => f x + g x)).sum = (ls.map f).sum + (ls.map g).sum
  | [] => by simp
  | x :: ls => by
    simp only [List.map_cons, List.sum_cons, sum_map_add f g ls]; ring

/-- A sum over the `lr_combos` product list is the iterated sum over lures
then retailers. -/
theorem sum_lrCombos (P : RetailProblem) (f : String → String → ℚ) :
    ((lrCombos P).map (fun p => f p.1 p.2)).sum
      = (P.lures.map (fun l => (P.retailers.map (fun r => f l r)).sum)).sum := by
  unfold lrCombos
  induction P.lures with
  | nil => simp
  | cons l ls ih =>
    simp only [List.flatMap_cons, List.map_append, List.sum_append, List.map_cons,
      List.sum_cons, List.map_map, ih]
    congr 1

/-- Exchange the order of a double list sum. -/
theorem sum_sum_comm {α β : Type} (f : α → β → ℚ) :
    ∀ (l1 : List α) (l2 : List β),
      (l1.map (fun a => (l2.map (fun b => f a b)).sum)).sum
        = (l2.map (fun b => (l1.map (fun a => f a b)).sum)).sum
  | [], l2 => by simp [List.map_const]
  | a :: l1, l2 => by
    simp only [List.map_cons, List.sum_cons, sum_sum_comm f l1 l2]
    rw [← sum_map_add]

/-- Adding a list of names whose sanitized forms are pairwise distinct and
fresh succeeds. -/
theorem addConstraintsByName_ok :
    ∀ (ns seen : List String), (seen ++ ns.map pulpSanitizeName).Nodup →
      addConstraintsByName seen ns = .ok (seen ++ ns.map pulpSanitizeName)
  | [], seen, _ => by simp [addConstraintsByName]
  | n :: ns, seen, h => by
    have hn : pulpSanitizeName n ∉ seen := by
      intro hmem
      exact (List.disjoint_of_nodup_append h) hmem (by simp)
    rw [addConstraintsByName, if_neg hn,
      addConstraintsByName_ok ns (seen ++ [pulpSanitizeName n]) (by simpa using h)]
    simp

/-- Adding a name list whose sanitized forms repeat (or hit an
already-stored name) raises the overlapping-constraint-names `PulpError`. -/
theorem addConstraintsByName_error :
    ∀ (ns seen : List String),
      (¬ (ns.map pulpSanitizeName).Nodup
        ∨ ∃ x ∈ ns.map pulpSanitizeName, x ∈ seen) →
      ∃ s, addConstraintsByName seen ns = .error s
  | [], _, h => by
    rcases h with h | ⟨x, hx, _⟩
    · exact absurd List.nodup_nil h
    · simp at hx
  | n :: ns, seen, h => by
    by_cases hn : pulpSanitizeName n ∈ seen
    · exact ⟨_, by rw [addConstraintsByName, if_pos hn]⟩
    · have hnext : ¬ (ns.map pulpSanitizeName).Nodup
          ∨ ∃ x ∈ ns.map pulpSanitizeName, x ∈ seen ++ [pulpSanitizeName n] := by
        rcases h with h | ⟨x, hx, hxs⟩
        · rw [List.map_cons, List.nodup_cons] at h
          push_neg at h
          by_cases hmem : pulpSanitizeName n ∈ ns.map pulpSanitizeName
          · exact Or.inr ⟨pulpSanitizeName n, hmem, by simp⟩
          · exact Or.inl (h hmem)
        · rw [List.map_cons] at hx
          rcases List.mem_cons.mp hx with rfl | hx'
          · exact absurd hxs hn
          · exact Or.inr ⟨x, hx', by simp [hxs]⟩
      obtain ⟨s, hs⟩ := addConstraintsByName_error ns (seen ++ [pulpSanitizeName n]) hnext
      exact ⟨s, by rw [addConstraintsByName, if_neg hn, hs]⟩

/-- `nameCheck` succeeds when the sanitized constraint names are distinct. -/
theorem nameCheck_ok (P : RetailProblem)
    (h : ((constraintNames P).map pulpSanitizeName).Nodup) :
    nameCheck P = .ok () := by
  unfold nameCheck
  rw [addConstraintsByName_ok (constraintNames P) [] (by simpa using h)]
  rfl

/-- `nameCheck` raises a `PulpError` when the sanitized constraint-name list
repeats a name. -/
theorem nameCheck_error (P : RetailProblem)
    (h : ¬ ((constraintNames P).map pulpSanitizeName).Nodup) :
    ∃ s, nameCheck P = .error s := by
  obtain ⟨s, hs⟩ := addConstraintsByName_error (constraintNames P) [] (Or.inl h)
  exact ⟨s, by unfold nameCheck; rw [hs]; rfl⟩

/-- The later of two entries with the same key wins in a `makeDict`
dictionary: appending a key/value pair makes the lookup of that key return
the appended value, whatever earlier entries said. -/
theorem makeDict1_append_last {α : Type} (ks : List String) (vs : List α)
    (k : String) (v : α) (hlen : ks.length = vs.length) :
    makeDict1 (ks ++ [k]) (vs ++ [v]) k = some v := by
  unfold makeDict1
  rw [List.zip_append hlen, List.foldl_append]
  simp

/-- When all entries of `d` agree with the value function `g`, inserting
`(k, g k)` is membership-transparent. -/
theorem mem_dictInsert_of_fun {α : Type} (g : String → α) (d : List (String × α))
    (k : String) (hfun : ∀ p ∈ d, p.2 = g p.1) (l : String) (w : α) :
    ((l, w) ∈ dictInsert d k (g k)) ↔ ((l, w) ∈ d ∨ (l = k ∧ w = g k)) := by
  unfold dictInsert
  by_cases h : d.any (fun kv => kv.1 = k)
  · rw [if_pos h]
    have hmap : d.map (fun kv => if kv.1 = k then (k, g k) else kv) = d := by
      rw [show d.map (fun kv => if kv.1 = k then (k, g k) else kv) = d.map id by
            apply List.map_congr_left
            intro p hp
            by_cases hpk : p.1 = k
            · simp only [if_pos hpk, id]
              have := hfun p hp
              subst hpk
              exact Prod.ext (by simp) (by simp [this])
            · simp [if_neg hpk],
          List.map_id]
    rw [hmap]
    constructor
    · exact Or.inl
    · rintro (hd | ⟨rfl, rfl⟩)
      · exact hd
      · simp only [List.any_eq_true, decide_eq_true_eq] at h
        obtain ⟨p, hp, hpk⟩ := h
        have hv := hfun p hp
        have : p = (l, g l) := Prod.ext (by simp [hpk]) (by simp [hv, hpk])
        rwa [this] at hp
  · rw [if_neg h]
    simp [Prod.ext_iff, and_comm]

/-- `dictInsert` preserves agreement with the value function `g`. -/
theorem dictInsert_fun {α : Type} (g : String → α) (d : List (String × α))
    (k : String) (hfun : ∀ p ∈ d, p.2 = g p.1) :
    ∀ p ∈ dictInsert d k (g k), p.2 = g p.1 := by
  unfold dictInsert
  by_cases h : d.any (fun kv => kv.1 = k)
  · rw [if_pos h]
    intro p hp
    simp only [List.mem_map] at hp
    obtain ⟨q, hq, hqe⟩ := hp
    by_cases hqk : q.1 = k
    · rw [if_pos hqk] at hqe
      simp [← hqe]
    · rw [if_neg hqk] at hqe
      rw [← hqe]
      exact hfun q hq
  · rw [if_neg h]
    intro p hp
    rcases List.mem_append.mp hp with hd | hk
    · exact hfun p hd
    · simp only [List.mem_singleton] at hk
      simp [hk]

/-- Membership characterization of the fold inside
`list_additonal_items_ordered`, generalized over the accumulator. -/
theorem list_additonal_fold_mem (P : RetailProblem) (v : String → String → ℚ) :
    ∀ (ls : List String) (acc : List (String × ℚ)),
      (∀ p ∈ acc,
        p.2 = (P.retailers.map (fun r => v p.1 r)).sum - P.num_lures_to_buy p.1) →
      ∀ (l : String) (w : ℚ),
        ((l, w) ∈ ls.foldl
          (fun extra_lures l =>
            let bought := (P.retailers.map (fun r => v l r)).sum
            if P.num_lures_to_buy l < bought then
              dictInsert extra_lures l (bought - P.num_lures_to_buy l)
            else extra_lures)
          acc)
        ↔ ((l, w) ∈ acc ∨
            (l ∈ ls ∧ P.num_lures_to_buy l < (P.retailers.map (fun r => v l r)).sum ∧
              w = (P.retailers.map (fun r => v l r)).sum - P.num_lures_to_buy l))
  | [], acc, _, l, w => by simp
  | x :: ls, acc, hfun, l, w => by
    simp only [List.foldl_cons]
    by_cases hcond :
        P.num_lures_to_buy x < (P.retailers.map (fun r => v x r)).sum
    · rw [if_pos hcond]
      have hfun' := dictInsert_fun
        (fun l => (P.retailers.map (fun r => v l r)).sum - P.num_lures_to_buy l)
        acc x hfun
      rw [list_additonal_fold_mem P v ls _ hfun' l w,
        mem_dictInsert_of_fun
          (fun l => (P.retailers.map (fun r => v l r)).sum - P.num_lures_to_buy l)
          acc x hfun l w]
      constructor
      · rintro ((hacc | ⟨rfl, rfl⟩) | ⟨hmem, hlt, rfl⟩)
        · exact Or.inl hacc
        · exact Or.inr ⟨by simp, hcond, rfl⟩
        · exact Or.inr ⟨by simp [hmem], hlt, rfl⟩
      · rintro (hacc | ⟨hmem, hlt, rfl⟩)
        · exact Or.inl (Or.inl hacc)
        · rcases List.mem_cons.mp hmem with rfl | hmem'
          · exact Or.inl (Or.inr ⟨rfl, rfl⟩)
          · exact Or.inr ⟨hmem', hlt, rfl⟩
    · rw [if_neg hcond]
      rw [list_additonal_fold_mem P v ls acc hfun l w]
      constructor
      · rintro (hacc | ⟨hmem, hlt, rfl⟩)
        · exact Or.inl hacc
        · exact Or.inr ⟨by simp [hmem], hlt, rfl⟩
      · rintro (hacc | ⟨hmem, hlt, rfl⟩)
        · exact Or.inl hacc
        · rcases List.mem_cons.mp hmem with rfl | hmem'
          · exact absurd hlt hcond
          · exact Or.inr ⟨hmem', hlt, rfl⟩

/-! ### Concrete problem instances used as witnesses and counterexamples -/

theorem fsm_l : format_string_model ("l") = ("l") := by decide

theorem fsm_r : format_string_model ("r") = ("r") := by decide

theorem fsm_l1 : format_string_model ("l1") = ("l1") := by decide

theorem fsm_l2 : format_string_model ("l2") = ("l2") := by decide

theorem fsm_r1 : format_string_model ("r1") = ("r1") := by decide

theorem fsm_r2 : format_string_model ("r2") = ("r2") := by decide

/-- A one-item, one-retailer input whose data is all zero and whose shipping
fee is zero. -/
def i0 : RetailInput :=
  { lures := ["l"]
    num_lures_to_buy := [0]
    retailers := ["r"]
    prices := [[0]]
    inventory := [[0]]
    shipping := [0]
    free_shipping_threshold := [0] }

/-- The model built from `i0`. -/
def P0 : RetailProblem := buildProblem i0

/-- An assignment for `P0`: order nothing, `pay_shipping = 1`,
`empty_order = 1`. -/
def a0 : Assignment :=
  { quant := fun _ _ => 0
    pay_shipping := fun _ => 1
    empty_order := fun _ => 1 }

theorem P0_lures : P0.lures = ["l"] := by decide

theorem P0_retailers : P0.retailers = ["r"] := by decide

theorem P0_combos : lrCombos P0 = [(("l"), ("r"))] := by decide

theorem P0_num : P0.num_lures_to_buy ("l") = 0 := by
  norm_num [P0, buildProblem, makeDict1, i0, format_list_strings, fsm_l, fsm_r]

theorem P0_price : P0.prices ("l") ("r") = 0 := by
  norm_num [P0, buildProblem, makeDict1, makeDict2, i0, format_list_strings, fsm_l, fsm_r]

theorem P0_inv : P0.inventory ("l") ("r") = 0 := by
  norm_num [P0, buildProblem, makeDict1, makeDict2, i0, format_list_strings, fsm_l, fsm_r]

theorem P0_ship : P0.shipping ("r") = 0 := by
  norm_num [P0, buildProblem, makeDict1, i0, format_list_strings, fsm_l, fsm_r]

theorem P0_thr : P0.free_shipping_threshold ("r") = 0 := by
  norm_num [P0, buildProblem, makeDict1, i0, format_list_strings, fsm_l, fsm_r]

theorem P0_M : P0.M ("r") = 1 := by
  norm_num [P0, buildProblem, compute_big_M_constants, makeDict1, makeDict2, i0,
    format_list_strings, fsm_l, fsm_r]

theorem P0_N : P0.N ("r") = 1 := by
  norm_num [P0, buildProblem, compute_big_M_constants, makeDict1, makeDict2, i0,
    format_list_strings, fsm_l, fsm_r]

theorem P0_flag : P0.can_buy_extra_lures_if_cheaper = true := rfl

/-- A one-item, one-retailer input: desired quantity 1, price 1, inventory 1,
shipping fee 1, free-shipping threshold 0. -/
def i1 : RetailInput :=
  { lures := ["l"]
    num_lures_to_buy := [1]
    retailers := ["r"]
    prices := [[1]]
    inventory := [[1]]
    shipping := [1]
    free_shipping_threshold := [0] }

/-- The model built from `i1`. -/
def P1 : RetailProblem := buildProblem i1

/-- The optimal assignment for `P1`: buy the single unit, pay no shipping. -/
def a1 : Assignment :=
  { quant := fun _ _ => 1
    pay_shipping := fun _ => 0
    empty_order := fun _ => 0 }

theorem P1_lures : P1.lures = ["l"] := by decide

theorem P1_retailers : P1.retailers = ["r"] := by decide

theorem P1_combos : lrCombos P1 = [(("l"), ("r"))] := by decide

theorem P1_num : P1.num_lures_to_buy ("l") = 1 := by
  norm_num [P1, buildProblem, makeDict1, i1, format_list_strings, fsm_l, fsm_r]

theorem P1_price : P1.prices ("l") ("r") = 1 := by
  norm_num [P1, buildProblem, makeDict1, makeDict2, i1, format_list_strings, fsm_l, fsm_r]

theorem P1_inv : P1.inventory ("l") ("r") = 1 := by
  norm_num [P1, buildProblem, makeDict1, makeDict2, i1, format_list_strings, fsm_l, fsm_r]

theorem P1_ship : P1.shipping ("r") = 1 := by
  norm_num [P1, buildProblem, makeDict1, i1, format_list_strings, fsm_l, fsm_r]

theorem P1_thr : P1.free_shipping_threshold ("r") = 0 := by
  norm_num [P1, buildProblem, makeDict1, i1, format_list_strings, fsm_l, fsm_r]

theorem P1_M : P1.M ("r") = 1 := by
  norm_num [P1, buildProblem, compute_big_M_constants, makeDict1, makeDict2, i1,
    format_list_strings, fsm_l, fsm_r]

theorem P1_N : P1.N ("r") = 2 := by
  norm_num [P1, buildProblem, compute_big_M_constants, makeDict1, makeDict2, i1,
    format_list_strings, fsm_l, fsm_r]

theorem P1_flag : P1.can_buy_extra_lures_if_cheaper = true := rfl

/-- Scenario B of the spec (surplus-allowed case): prices
`[[4.99, 5.49], [3.99, 3.49]]`, inventory `[[100, 10], [15, 30]]`, shipping
`[6.75, 3.99]`, thresholds `[50.0, 59.0]`, demand `[0, 16]`. -/
def iB : RetailInput :=
  { lures := ["l1", "l2"]
    num_lures_to_buy := [0, 16]
    retailers := ["r1", "r2"]
    prices := [[4.99, 5.49], [3.99, 3.49]]
    inventory := [[100, 10], [15, 30]]
    shipping := [6.75, 3.99]
    free_shipping_threshold := [50, 59] }

/-- The model built from Scenario B's input. -/
def PB : RetailProblem := buildProblem iB

/-- The solver values of the documented optimal plan of Scenario B with
surplus allowed: 17 units of `l2` from `r2`, nothing else. -/
def vB : String → String → ℚ :=
  fun l r => if l = ("l2") ∧ r = ("r2") then 17 else 0

/-- The `pay_shipping` solver values of that plan (free shipping). -/
def payB : String → ℚ := fun _ => 0

theorem PB_lures : PB.lures = ["l1", "l2"] := by decide

theorem PB_retailers : PB.retailers = ["r1", "r2"] := by decide

theorem PB_num1 : PB.num_lures_to_buy ("l1") = 0 := by
  simp +decide [PB, buildProblem, makeDict1, iB, format_list_strings, fsm_l1, fsm_l2]

theorem PB_num2 : PB.num_lures_to_buy ("l2") = 16 := by
  norm_num [PB, buildProblem, makeDict1, iB, format_list_strings, fsm_l1, fsm_l2]

/-- Evaluation of the surplus report at the Scenario B plan. -/
theorem PB_surplus_eval :
    list_additonal_items_ordered PB vB = [(("l2"), (1 : ℚ))] := by
  norm_num +decide [list_additonal_items_ordered, PB_lures, PB_retailers, PB_num1, PB_num2,
    vB, dictInsert]

/-- An input whose lure and demand lists have different lengths. -/
def i8 : RetailInput :=
  { lures := ["l"]
    num_lures_to_buy := [1, 2]
    retailers := ["r"]
    prices := [[1]]
    inventory := [[1]]
    shipping := [1]
    free_shipping_threshold := [1] }

/-- A well-aligned input containing a negative price. -/
def i9 : RetailInput :=
  { lures := ["l"]
    num_lures_to_buy := [1]
    retailers := ["r"]
    prices := [[-1]]
    inventory := [[1]]
    shipping := [1]
    free_shipping_threshold := [0] }

/-- An input with two distinct lure names that normalize to the same
canonical token `"a-b"`. -/
def i10 : RetailInput :=
  { lures := ["A b", "a-b"]
    num_lures_to_buy := [1, 2]
    retailers := ["r"]
    prices := [[1], [1]]
    inventory := [[5], [7]]
    shipping := [0]
    free_shipping_threshold := [0] }

/-! ### More helper lemmas -/

/-- Python `int()` is the identity on integral rationals. -/
theorem pyInt_cast_eq_self (x : ℚ) (hx : IsIntQ x) : (pyInt x : ℚ) = x := by
  obtain ⟨n, rfl⟩ : ∃ n : ℤ, x = (n : ℚ) :=
    ⟨x.num, ((Rat.den_eq_one_iff x).mp hx).symm⟩
  unfold pyInt
  by_cases h : (0 : ℚ) ≤ (n : ℚ)
  · rw [if_pos h, Int.floor_intCast]
  · rw [if_neg h, Int.ceil_intCast]

/-- Python `int()` agrees with round-to-nearest on integral rationals. -/
theorem pyInt_eq_roundNearest (x : ℚ) (hx : IsIntQ x) :
    pyInt x = roundNearest x := by
  obtain ⟨n, rfl⟩ : ∃ n : ℤ, x = (n : ℚ) :=
    ⟨x.num, ((Rat.den_eq_one_iff x).mp hx).symm⟩
  have hfl : roundNearest (n : ℚ) = n := by
    unfold roundNearest
    rw [Int.floor_int_add]
    norm_num
  rw [hfl]
  unfold pyInt
  by_cases h : (0 : ℚ) ≤ (n : ℚ)
  · rw [if_pos h, Int.floor_intCast]
  · rw [if_neg h, Int.ceil_intCast]

/-- `checkDimensions` succeeds exactly when the five length alignments hold. -/
theorem checkDimensions_ok_iff (i : RetailInput) :
    checkDimensions i = .ok () ↔ fiveAligned i := by
  unfold checkDimensions fiveAligned
  split_ifs <;> simp_all

/-- A `checkDimensions` error correctly reports a failing alignment. -/
theorem checkDimensions_error_holds (i : RetailInput) (e : DimensionMismatch)
    (h : checkDimensions i = .error e) : e.holds i := by
  unfold checkDimensions at h
  split_ifs at h <;>
    (injection h with h; subst h; simp [DimensionMismatch.holds, *])

/-- A reported mismatch contradicts full alignment. -/
theorem DimensionMismatch.holds_not_aligned (i : RetailInput)
    (e : DimensionMismatch) (h : e.holds i) : ¬ fiveAligned i := by
  intro hfa
  obtain ⟨h1, h2, h3, h4, h5⟩ := hfa
  cases e <;> simp_all [DimensionMismatch.holds]

/-- When alignment fails, some check fires. -/
theorem checkDimensions_error_of_not_aligned (i : RetailInput)
    (h : ¬ fiveAligned i) : ∃ e, checkDimensions i = .error e := by
  unfold checkDimensions
  unfold fiveAligned at h
  push_neg at h
  split_ifs with h1 h2 h3 h4 h5
  · exact ⟨_, rfl⟩
  · exact ⟨_, rfl⟩
  · exact ⟨_, rfl⟩
  · exact ⟨_, rfl⟩
  · exact ⟨_, rfl⟩
  · exact absurd (not_ne_iff.mp h5)
      (h (not_ne_iff.mp h1) (not_ne_iff.mp h2) (not_ne_iff.mp h3) (not_ne_iff.mp h4))

/-! ### Claim theorems -/

/-- C2: for every retailer `r`, the big-M constants computed at construction
satisfy `M[r] = threshold[r] + 1.0` (the margin is the fixed strictly
positive constant `1.0`) and `N[r] = M[r] + Σ_l inventory[l][r]`; both are
computed from the instance's own threshold and inventory data only (they are
functions of exactly those arguments). -/
theorem big_M_constants_spec (lures : List String) (retailers : List String)
    (free_shipping_threshold : String → ℚ) (inventory : String → String → ℚ)
    (r : String) (hr : r ∈ retailers) :
    (compute_big_M_constants lures retailers free_shipping_threshold inventory).1 r
      = free_shipping_threshold r + 1 ∧
    (0 : ℚ) < 1 ∧
    (compute_big_M_constants lures retailers free_shipping_threshold inventory).2 r
      = (compute_big_M_constants lures retailers free_shipping_threshold inventory).1 r
        + (lures.map (fun l => inventory l r)).sum := by
  refine ⟨rfl, one_pos, ?_⟩
  show lures.foldl (fun acc l => acc + inventory l r) (free_shipping_threshold r + 1) = _
  rw [foldl_add_map_sum]
  rfl

/-- Witness for C2 at a concrete instance: threshold 5 and inventory 3 for
the single lure give `M = 6` and `N = 9`. -/
theorem big_M_constants_spec_witness :
    (compute_big_M_constants ["l"] ["r"] (fun _ => 5) (fun _ _ => 3)).1 ("r") = 6 ∧
    (compute_big_M_constants ["l"] ["r"] (fun _ => 5) (fun _ _ => 3)).2 ("r") = 9 := by
  have h := big_M_constants_spec ["l"] ["r"] (fun _ => 5) (fun _ _ => 3) ("r") (by simp)
  refine ⟨by rw [h.1]; norm_num, by rw [h.2.2, h.1]; norm_num⟩

/-- C3: in every feasible (hence every optimal) assignment of the built
model, each item's total purchased quantity over all retailers is at least
the desired quantity when the allow-surplus flag is true, and exactly equal
to it when the flag is false. -/
theorem demand_constraint_spec (P : RetailProblem) (a : Assignment)
    (h : Feasible P a) (l : String) (hl : l ∈ P.lures) :
    (P.can_buy_extra_lures_if_cheaper = true →
      P.num_lures_to_buy l ≤ totalSupplied P a l) ∧
    (P.can_buy_extra_lures_if_cheaper = false →
      totalSupplied P a l = P.num_lures_to_buy l) :=
  ⟨fun hf => h.demand_ge hf l hl, fun hf => h.demand_eq hf l hl⟩

/-- C4 counterexample: with a solver value of `2.7` for a quantity variable,
the extracted plan reports `int(2.7) = 2`, while rounding to the nearest
integer gives `3` — so the extracted quantity is not the rounded solver
value. -/
theorem plan_not_rounded_counterexample :
    Option.map (fun q => q ("l") ("r"))
        (convert_model_variable_quantities_to_dict 1 (fun _ _ => 27 / 10))
      = some 2
    ∧ roundNearest (27 / 10) = 3
    ∧ (2 : ℤ) ≠ 3 := by
  refine ⟨?_, ?_, by decide⟩
  · have : pyInt (27 / 10) = 2 := by
      unfold pyInt
      rw [if_pos (by norm_num)]
      rw [show ((27 : ℚ) / 10) = 2 + 7 / 10 by norm_num]
      rw [show ((2 : ℚ) + 7 / 10) = ((2 : ℤ) : ℚ) + 7 / 10 by norm_num,
        Int.floor_int_add]
      norm_num [Int.floor_eq_iff]
    simp [convert_model_variable_quantities_to_dict, this]
  · unfold roundNearest
    rw [show ((27 : ℚ) / 10 + 1 / 2) = ((3 : ℤ) : ℚ) + 1 / 5 by norm_num,
      Int.floor_int_add]
    norm_num [Int.floor_eq_iff]

/-- C4 (amended): in integer-quantity mode the purchased quantity reported
by plan extraction — in the plan dictionary and in the quantities table —
equals the solver's value converted by Python `int()`, i.e. truncated toward
zero; this coincides with rounding to the nearest integer exactly when the
solver value is integral. -/
theorem plan_quantities_truncated (P : RetailProblem)
    (v : String → String → ℚ) (payv : String → ℚ) (l r : String)
    (hl : l ∈ P.lures) (hr : r ∈ P.retailers) :
    Option.map (fun q => q l r) (convert_model_variable_quantities_to_dict 1 v)
      = some (pyInt (v l r))
    ∧ Option.map (fun R => R.quant l r)
        (generate_dataframes_storing_results P 1 v payv) = some (pyInt (v l r))
    ∧ (IsIntQ (v l r) → pyInt (v l r) = roundNearest (v l r)) := by
  refine ⟨?_, ?_, fun hint => pyInt_eq_roundNearest _ hint⟩
  · simp [convert_model_variable_quantities_to_dict]
  · simp [generate_dataframes_storing_results]

/-- Witness for C4 (amended) at `P1` with solver value `1` everywhere. -/
theorem plan_quantities_truncated_witness :
    Option.map (fun q => q ("l") ("r"))
        (convert_model_variable_quantities_to_dict 1 (fun _ _ => 1))
      = some (pyInt 1) :=
  (plan_quantities_truncated P1 (fun _ _ => 1) (fun _ => 0) ("l") ("r")
    (by rw [P1_lures]; simp) (by rw [P1_retailers]; simp)).1

/-- C5 counterexample: after a non-Optimal solve (status `-1`, Infeasible)
the plan dictionary and the result tables are indeed absent, but the surplus
report is not: `list_additonal_items_ordered` performs no status check and
still produces the non-empty report `{l2: 1}` from the current variable
values — so not every derived output is absent. -/
theorem extraction_gating_counterexample :
    ((-1 : ℤ) ≠ 1)
    ∧ convert_model_variable_quantities_to_dict (-1) vB = none
    ∧ generate_dataframes_storing_results PB (-1) vB payB = none
    ∧ list_additonal_items_ordered PB vB = [(("l2"), (1 : ℚ))]
    ∧ [(("l2"), (1 : ℚ))] ≠ ([] : List (String × ℚ)) := by
  refine ⟨by decide, ?_, ?_, PB_surplus_eval, by simp⟩
  · simp [convert_model_variable_quantities_to_dict]
  · simp [generate_dataframes_storing_results]

/-- C5 (amended): result extraction of the plan dictionary and of the
quantities/billing tables is gated on Optimal status — on any non-Optimal
status both are `None` — but the surplus report is not status-gated (it is a
function of the variable values alone, as the counterexample shows). -/
theorem extraction_gated_on_optimal (P : RetailProblem) (status : ℤ)
    (v : String → String → ℚ) (payv : String → ℚ) (h : status ≠ 1) :
    convert_model_variable_quantities_to_dict status v = none
    ∧ generate_dataframes_storing_results P status v payv = none := by
  constructor
  · simp [convert_model_variable_quantities_to_dict, h]
  · simp [generate_dataframes_storing_results, h]

/-- Witness for C5 (amended) at status `0` (Not Solved). -/
theorem extraction_gated_on_optimal_witness :
    convert_model_variable_quantities_to_dict 0 vB = none
    ∧ generate_dataframes_storing_results PB 0 vB payB = none :=
  extraction_gated_on_optimal PB 0 vB payB (by decide)

/-- C6: the surplus report contains exactly those items whose summed
purchased quantity across retailers strictly exceeds the desired quantity,
each mapped to the positive difference bought − desired, and no others; and
on the documented Scenario B plan (surplus allowed) it is exactly
`{l2: 1}`. -/
theorem surplus_report_spec (P : RetailProblem) (v : String → String → ℚ)
    (l : String) (d : ℚ) :
    ((l, d) ∈ list_additonal_items_ordered P v ↔
      (l ∈ P.lures
        ∧ P.num_lures_to_buy l < (P.retailers.map (fun r => v l r)).sum
        ∧ d = (P.retailers.map (fun r => v l r)).sum - P.num_lures_to_buy l))
    ∧ list_additonal_items_ordered PB vB = [(("l2"), (1 : ℚ))] := by
  refine ⟨?_, PB_surplus_eval⟩
  unfold list_additonal_items_ordered
  rw [list_additonal_fold_mem P v P.lures [] (by simp) l d]
  simp

/-! ### Feasibility and optimality of the concrete assignments -/

theorem feasible_P0_a0 : Feasible P0 a0 := by
  refine ⟨?_, ?_, ?_, ?_, ?_, ?_, ?_, ?_, ?_⟩
  · rw [P0_combos]; intro p hp; norm_num [a0]
  · intro _ p hp; rw [P0_combos] at hp; simp only [List.mem_singleton] at hp
    subst hp; show ((0 : ℚ)).den = 1; norm_num [a0]
  · intro r hr; exact Or.inr rfl
  · intro r hr; exact Or.inr rfl
  · rw [P0_combos]; intro p hp; simp only [List.mem_singleton] at hp
    subst hp; rw [show a0.quant ("l") ("r") = 0 from rfl, P0_inv]
  · intro _ l hl; rw [P0_lures] at hl; simp only [List.mem_singleton] at hl
    subst hl
    simp [totalSupplied, P0_retailers, a0, P0_num]
  · intro hflag; rw [P0_flag] at hflag; exact Bool.noConfusion hflag
  · intro r hr; rw [P0_retailers] at hr; simp only [List.mem_singleton] at hr
    subst hr
    simp [totalQuant, P0_lures, a0, P0_N]
  · intro r hr; rw [P0_retailers] at hr; simp only [List.mem_singleton] at hr
    subst hr
    simp only [subtotal, P0_lures, List.map_cons, List.map_nil, List.sum_cons,
      List.sum_nil, P0_price, P0_thr, P0_M, P0_N]
    norm_num [a0]

theorem objective_P0_eval (b : Assignment) : objective P0 b = 0 := by
  simp [objective, P0_combos, P0_retailers, P0_price, P0_ship]

theorem optimal_P0_a0 : OptimalSol P0 a0 :=
  ⟨feasible_P0_a0, fun b _ => by rw [objective_P0_eval, objective_P0_eval]⟩

theorem feasible_P1_a1 : Feasible P1 a1 := by
  refine ⟨?_, ?_, ?_, ?_, ?_, ?_, ?_, ?_, ?_⟩
  · rw [P1_combos]; intro p hp; norm_num [a1]
  · intro _ p hp; rw [P1_combos] at hp; simp only [List.mem_singleton] at hp
    subst hp; show ((1 : ℚ)).den = 1; norm_num [a1]
  · intro r hr; exact Or.inl rfl
  · intro r hr; exact Or.inl rfl
  · rw [P1_combos]; intro p hp; simp only [List.mem_singleton] at hp
    subst hp; rw [show a1.quant ("l") ("r") = 1 from rfl, P1_inv]
  · intro _ l hl; rw [P1_lures] at hl; simp only [List.mem_singleton] at hl
    subst hl
    simp [totalSupplied, P1_retailers, a1, P1_num]
  · intro hflag; rw [P1_flag] at hflag; exact Bool.noConfusion hflag
  · intro r hr; rw [P1_retailers] at hr; simp only [List.mem_singleton] at hr
    subst hr
    simp only [totalQuant, P1_lures, List.map_cons, List.map_nil, List.sum_cons,
      List.sum_nil, P1_N]
    norm_num [a1]
  · intro r hr; rw [P1_retailers] at hr; simp only [List.mem_singleton] at hr
    subst hr
    simp only [subtotal, P1_lures, List.map_cons, List.map_nil, List.sum_cons,
      List.sum_nil, P1_price, P1_thr, P1_M, P1_N]
    norm_num [a1]

theorem objective_P1_eval (b : Assignment) :
    objective P1 b = b.quant ("l") ("r") + b.pay_shipping ("r") := by
  simp [objective, P1_combos, P1_retailers, P1_price, P1_ship]

theorem optimal_P1_a1 : OptimalSol P1 a1 := by
  refine ⟨feasible_P1_a1, fun b hb => ?_⟩
  rw [objective_P1_eval a1, objective_P1_eval b]
  have hq : (1 : ℚ) ≤ b.quant ("l") ("r") := by
    have h := hb.demand_ge P1_flag ("l") (by rw [P1_lures]; simp)
    simp only [totalSupplied, P1_retailers, List.map_cons, List.map_nil,
      List.sum_cons, List.sum_nil, P1_num] at h
    linarith
  have hp : (0 : ℚ) ≤ b.pay_shipping ("r") := by
    rcases hb.pay_bin ("r") (by rw [P1_retailers]; simp) with h | h <;>
      rw [h] <;> norm_num
  have : a1.quant ("l") ("r") = 1 := rfl
  have h2 : a1.pay_shipping ("r") = 0 := rfl
  rw [this, h2]
  linarith

/-- C3 witness: for `P1` (surplus allowed) the feasible assignment `a1`
supplies at least the desired quantity of the single lure. -/
theorem demand_constraint_spec_witness :
    P1.num_lures_to_buy ("l") ≤ totalSupplied P1 a1 ("l") :=
  (demand_constraint_spec P1 a1 feasible_P1_a1 ("l")
    (by rw [P1_lures]; simp)).1 P1_flag

/-! ### C1: the shipping-indicator property at optimal solutions -/

/-- The assignment `a` with `pay_shipping[r]` forced to `0`, used in the
exchange argument for C1. -/
def setPayZero (a : Assignment) (r : String) : Assignment :=
  { quant := a.quant
    pay_shipping := fun x => if x = r then 0 else a.pay_shipping x
    empty_order := a.empty_order }

theorem setPayZero_feasible (P : RetailProblem) (a : Assignment)
    (hfeas : Feasible P a) (r : String) (hr : r ∈ P.retailers)
    (hN : P.N r = P.free_shipping_threshold r + 1
      + (P.lures.map (fun l => P.inventory l r)).sum)
    (hinv : 0 ≤ (P.lures.map (fun l => P.inventory l r)).sum)
    (hsub : P.free_shipping_threshold r ≤ subtotal P a r) :
    Feasible P (setPayZero a r) := by
  refine ⟨hfeas.quant_lb, hfeas.quant_int, ?_, hfeas.empty_bin, hfeas.inv_cap,
    hfeas.demand_ge, hfeas.demand_eq, hfeas.empty_link, ?_⟩
  · intro r' hr'
    show Binary (if r' = r then 0 else a.pay_shipping r')
    by_cases hx : r' = r
    · rw [if_pos hx]; exact Or.inl rfl
    · rw [if_neg hx]; exact hfeas.pay_bin r' hr'
  · intro r' hr'
    have hsubt_eq : subtotal P (setPayZero a r) r' = subtotal P a r' := rfl
    have hpay_eq : (setPayZero a r).pay_shipping r'
        = (if r' = r then 0 else a.pay_shipping r') := rfl
    have hemp_eq : (setPayZero a r).empty_order r' = a.empty_order r' := rfl
    rw [hsubt_eq, hpay_eq, hemp_eq]
    by_cases hx : r' = r
    · subst hx
      rw [if_pos rfl, mul_zero, add_zero]
      rcases hfeas.empty_bin r' hr' with he0 | he1
      · rw [he0, mul_zero, neg_zero]
        linarith
      · have hel := hfeas.empty_link r' hr'
        rw [he1, show P.N r' * (1 - (1 : ℚ)) = 0 from by ring] at hel
        have hz : ∀ l ∈ P.lures, a.quant l r' = 0 := by
          intro l hl
          exact sum_map_eq_zero_of_nonneg (fun l => a.quant l r') P.lures
            (fun x hx => hfeas.quant_lb (x, r')
              ((mem_lrCombos P x r').mpr ⟨hx, hr'⟩))
            hel l hl
        have hsub0 : subtotal P a r' = 0 := by
          unfold subtotal
          apply List.sum_eq_zero
          intro x hx
          simp only [List.mem_map] at hx
          obtain ⟨l, hl, rfl⟩ := hx
          rw [hz l hl, mul_zero]
        rw [hsub0, he1, mul_one]
        rw [hN]
        linarith
    · rw [if_neg hx]
      exact hfeas.ship_link r' hr'

/-- C1 counterexample to the claim as stated: for the built model of the
all-zero instance `i0` — whose shipping fee is `0`, an allowed input — the
assignment `a0` is optimal, its subtotal at retailer `r` meets the
threshold, and yet `pay_shipping[r] = 1`. -/
theorem shipping_indicator_counterexample :
    OptimalSol P0 a0
    ∧ P0.free_shipping_threshold ("r") ≤ subtotal P0 a0 ("r")
    ∧ a0.pay_shipping ("r") ≠ 0 := by
  refine ⟨optimal_P0_a0, ?_, ?_⟩
  · rw [P0_thr]
    simp [subtotal, P0_lures, a0, P0_price]
  · show (1 : ℚ) ≠ 0
    norm_num

/-- C1 (amended): at every optimal solution of the built model, for every
retailer `r` with a strictly positive shipping fee, `pay_shipping[r] = 0`
whenever the order subtotal at `r` is at least the threshold (inclusive);
and — at every optimal (indeed feasible) solution, with no fee condition —
`pay_shipping[r] = 1` whenever the subtotal is below the threshold and at
least one unit is ordered from `r`.  (With a zero shipping fee the first
part can fail, as the counterexample shows.)  The hypotheses `hN`, `hinv`
state that `N[r]` is the construction-computed constant over nonnegative
inventory data. -/
theorem shipping_indicator_spec (P : RetailProblem) (a : Assignment)
    (hopt : OptimalSol P a) (r : String) (hr : r ∈ P.retailers)
    (hN : P.N r = P.free_shipping_threshold r + 1
      + (P.lures.map (fun l => P.inventory l r)).sum)
    (hinv : 0 ≤ (P.lures.map (fun l => P.inventory l r)).sum) :
    (0 < P.shipping r → P.free_shipping_threshold r ≤ subtotal P a r →
      a.pay_shipping r = 0)
    ∧ (subtotal P a r < P.free_shipping_threshold r → 1 ≤ totalQuant P a r →
      a.pay_shipping r = 1) := by
  obtain ⟨hfeas, hmin⟩ := hopt
  have hpayb := hfeas.pay_bin r hr
  have hempb := hfeas.empty_bin r hr
  constructor
  · intro hship hsub
    rcases hpayb with hp0 | hp1
    · exact hp0
    · exfalso
      have hbfeas : Feasible P (setPayZero a r) :=
        setPayZero_feasible P a hfeas r hr hN hinv hsub
      have hobj : objective P (setPayZero a r) + P.shipping r ≤ objective P a := by
        unfold objective
        have hitems : ((lrCombos P).map
              (fun p => P.prices p.1 p.2 * (setPayZero a r).quant p.1 p.2)).sum
            = ((lrCombos P).map
              (fun p => P.prices p.1 p.2 * a.quant p.1 p.2)).sum := rfl
        rw [hitems]
        have hships : (P.retailers.map
              (fun x => P.shipping x * (setPayZero a r).pay_shipping x)).sum
              + P.shipping r
            ≤ (P.retailers.map (fun x => P.shipping x * a.pay_shipping x)).sum := by
          apply sum_map_le_of_mem
          · intro x hx
            show P.shipping x * (if x = r then 0 else a.pay_shipping x)
              ≤ P.shipping x * a.pay_shipping x
            by_cases hxr : x = r
            · subst hxr
              rw [if_pos rfl, hp1, mul_zero, mul_one]
              linarith
            · rw [if_neg hxr]
          · exact hr
          · show P.shipping r * (if r = r then 0 else a.pay_shipping r)
                + P.shipping r ≤ P.shipping r * a.pay_shipping r
            rw [if_pos rfl, hp1, mul_zero, mul_one]
            linarith
        linarith
      have := hmin (setPayZero a r) hbfeas
      linarith
  · intro hsub hq
    rcases hempb with he0 | he1
    · have hs := hfeas.ship_link r hr
      rw [he0, mul_zero, neg_zero] at hs
      rcases hpayb with hp0 | hp1
      · exfalso
        rw [hp0, mul_zero, add_zero] at hs
        linarith
      · exact hp1
    · exfalso
      have hel := hfeas.empty_link r hr
      rw [he1, show P.N r * (1 - (1 : ℚ)) = 0 from by ring] at hel
      linarith

/-- Witness for C1 (amended) at the concrete optimum `a1` of `P1`: the
subtotal `1` meets the threshold `0`, the fee is positive, and the theorem
yields `pay_shipping[r] = 0`. -/
theorem shipping_indicator_spec_witness : a1.pay_shipping ("r") = 0 :=
  (shipping_indicator_spec P1 a1 optimal_P1_a1 ("r") (by rw [P1_retailers]; simp)
    (by simp only [P1_lures, List.map_cons, List.map_nil, List.sum_cons,
          List.sum_nil, P1_N, P1_thr, P1_inv]
        norm_num)
    (by simp only [P1_lures, List.map_cons, List.map_nil, List.sum_cons,
          List.sum_nil, P1_inv]
        norm_num)).1
    (by rw [P1_ship]; norm_num)
    (by simp only [subtotal, P1_lures, List.map_cons, List.map_nil,
          List.sum_cons, List.sum_nil, P1_price, P1_thr]
        norm_num [a1])

/-! ### Construction control-flow lemmas -/

theorem construct_eq_error_dim (i : RetailInput) (e : DimensionMismatch)
    (hc : checkDimensions i = .error e) : construct i = .error (.dim e) := by
  unfold construct
  rw [hc]

theorem construct_eq_of_ok (i : RetailInput)
    (hc : checkDimensions i = .ok ()) :
    construct i = (match nameCheck (buildProblem i) with
      | .error s => .error (.pulpError s)
      | .ok _ => .ok (buildProblem i)) := by
  unfold construct
  rw [hc]

theorem construct_ok_of (i : RetailInput) (hal : fiveAligned i)
    (hnames : ((constraintNames (buildProblem i)).map pulpSanitizeName).Nodup) :
    construct i = .ok (buildProblem i) := by
  rw [construct_eq_of_ok i ((checkDimensions_ok_iff i).mpr hal),
    nameCheck_ok _ hnames]

/-! ### C7: the billing summary -/

/-- C7: after an Optimal solve, for every retailer the billing summary's
shipping charge is the `pay_shipping` value times the flat fee, the combined
total is the item subtotal plus the shipping charge, and the grand total
across retailers equals the solved objective value (exactly, in exact
arithmetic, provided the solver's quantity values are integral — the
"solver numeric tolerance" of the claim is zero here). -/
theorem billing_summary_spec (P : RetailProblem) (v : String → String → ℚ)
    (payv : String → ℚ) (R : SolveResults)
    (hR : generate_dataframes_storing_results P 1 v payv = some R)
    (hint : ∀ p ∈ lrCombos P, IsIntQ (v p.1 p.2)) :
    (∀ r ∈ P.retailers,
      R.shipping_bill r = payv r * P.shipping r
      ∧ R.total_bill r = R.item_bill r + R.shipping_bill r)
    ∧ R.grand_total
        = objective P { quant := v, pay_shipping := payv, empty_order := fun _ => 0 } := by
  rw [generate_dataframes_storing_results, if_pos rfl] at hR
  obtain rfl : _ = R := Option.some.inj hR
  have hcast : ∀ l ∈ P.lures, ∀ r ∈ P.retailers, ((pyInt (v l r) : ℤ) : ℚ) = v l r :=
    fun l hl r hr =>
      pyInt_cast_eq_self _ (hint (l, r) ((mem_lrCombos P l r).mpr ⟨hl, hr⟩))
  refine ⟨fun r _ => ⟨rfl, add_comm _ _⟩, ?_⟩
  show (P.retailers.map (fun r => payv r * P.shipping r
      + (P.lures.map (fun l => ((pyInt (v l r) : ℤ) : ℚ) * P.prices l r)).sum)).sum
    = _
  rw [sum_map_add (fun r => payv r * P.shipping r)
    (fun r => (P.lures.map (fun l => ((pyInt (v l r) : ℤ) : ℚ) * P.prices l r)).sum)]
  have e5 : objective P { quant := v, pay_shipping := payv, empty_order := fun _ => 0 }
      = ((lrCombos P).map (fun p => P.prices p.1 p.2 * v p.1 p.2)).sum
        + (P.retailers.map (fun r => P.shipping r * payv r)).sum := rfl
  rw [e5]
  have hitem : (P.retailers.map
        (fun r => (P.lures.map (fun l => ((pyInt (v l r) : ℤ) : ℚ) * P.prices l r)).sum)).sum
      = (P.retailers.map
        (fun r => (P.lures.map (fun l => P.prices l r * v l r)).sum)).sum := by
    apply congrArg List.sum
    apply List.map_congr_left
    intro r hr
    apply congrArg List.sum
    apply List.map_congr_left
    intro l hl
    rw [hcast l hl r hr, mul_comm]
  have e3 : ((lrCombos P).map (fun p => P.prices p.1 p.2 * v p.1 p.2)).sum
      = (P.lures.map (fun l => (P.retailers.map (fun r => P.prices l r * v l r)).sum)).sum :=
    sum_lrCombos P (fun l r => P.prices l r * v l r)
  have e2 : (P.lures.map
        (fun l => (P.retailers.map (fun r => P.prices l r * v l r)).sum)).sum
      = (P.retailers.map
        (fun r => (P.lures.map (fun l => P.prices l r * v l r)).sum)).sum :=
    sum_sum_comm (fun l r => P.prices l r * v l r) P.lures P.retailers
  have e4 : (P.retailers.map (fun r => payv r * P.shipping r)).sum
      = (P.retailers.map (fun r => P.shipping r * payv r)).sum := by
    apply congrArg List.sum
    apply List.map_congr_left
    intro r _
    rw [mul_comm]
  rw [hitem, e3, e2, e4]
  exact add_comm _ _

/-- The solved assignment used in the C7 witness: every quantity value `1`,
`pay_shipping` value `0`. -/
def aW : Assignment :=
  { quant := fun _ _ => 1
    pay_shipping := fun _ => 0
    empty_order := fun _ => 0 }

/-- Witness for C7 at `P1` with integral solver values (`quant = 1`,
`pay_shipping = 0`): the grand total of the produced tables equals the
objective value. -/
theorem billing_summary_spec_witness :
    ∃ R : SolveResults,
      generate_dataframes_storing_results P1 1 (fun _ _ => 1) (fun _ => 0) = some R
      ∧ R.grand_total = objective P1 aW := by
  refine ⟨_, rfl, ?_⟩
  exact (billing_summary_spec P1 (fun _ _ => 1) (fun _ => 0) _ rfl
    (by intro p hp; show ((1 : ℚ)).den = 1; norm_num)).2

/-! ### C8: dimension validation -/

/-- C8: construction fails, with a `DimensionMismatch` error naming the
mismatched fields, exactly when one of the five length alignments fails;
the check runs before any model state exists (an accepted construction
implies full alignment and stores the complete formatted input lists —
nothing truncated or padded). -/
theorem dimension_check_spec (i : RetailInput) :
    ((¬ fiveAligned i) ↔
      ∃ e : DimensionMismatch, construct i = .error (.dim e) ∧ e.holds i)
    ∧ (∀ P, construct i = .ok P →
        fiveAligned i ∧ P.lures = format_list_strings i.lures
          ∧ P.retailers = format_list_strings i.retailers) := by
  constructor
  · constructor
    · intro h
      obtain ⟨e, he⟩ := checkDimensions_error_of_not_aligned i h
      exact ⟨e, construct_eq_error_dim i e he, checkDimensions_error_holds i e he⟩
    · rintro ⟨e, _, hholds⟩
      exact DimensionMismatch.holds_not_aligned i e hholds
  · intro P hP
    rcases hc : checkDimensions i with e | u
    · rw [construct_eq_error_dim i e hc] at hP
      simp at hP
    · cases u
      rw [construct_eq_of_ok i hc] at hP
      rcases hn : nameCheck (buildProblem i) with s | u'
      · rw [hn] at hP
        simp at hP
      · rw [hn] at hP
        simp only [] at hP
        obtain rfl : buildProblem i = P := Except.ok.inj hP
        exact ⟨(checkDimensions_ok_iff i).mp hc, rfl, rfl⟩

/-- Witness for C8: the input `i8` (demand list longer than the lure list)
is rejected with a mismatch naming fields whose lengths indeed differ. -/
theorem dimension_check_spec_witness :
    ∃ e : DimensionMismatch, construct i8 = .error (.dim e) ∧ e.holds i8 :=
  (dimension_check_spec i8).1.mp (by decide)

/-! ### C9: no sign validation -/

/-- C9 counterexample: the well-aligned input `i9` carries a negative price
`-1` yet construction accepts it — so accepted inputs need not satisfy the
sign bounds, and construction does not reject sign violations. -/
theorem sign_check_counterexample :
    construct i9 = .ok (buildProblem i9)
    ∧ i9.prices = [[-1]]
    ∧ ((-1 : ℚ) < 0) :=
  ⟨construct_ok_of i9 (by decide) (by decide), rfl, by norm_num⟩

/-- C9 (amended): construction validates only the five length alignments
(and PuLP's uniqueness of the sanitized constraint names); it never checks
sign bounds, so any well-aligned input whose sanitized constraint names are
distinct is accepted whatever the signs of its prices, fees, thresholds,
inventories, or desired quantities. -/
theorem construct_no_sign_validation (i : RetailInput) (hal : fiveAligned i)
    (hnames : ((constraintNames (buildProblem i)).map pulpSanitizeName).Nodup) :
    construct i = .ok (buildProblem i) :=
  construct_ok_of i hal hnames

/-- Witness for C9 (amended): the negative-price input `i9` is accepted. -/
theorem construct_no_sign_validation_witness :
    construct i9 = .ok (buildProblem i9) :=
  construct_no_sign_validation i9 (by decide) (by decide)

/-! ### C10: duplicate normalized names -/

/-- C10 counterexample: the inputs `"A b"` and `"a-b"` normalize to the same
token, but construction does not succeed: while building the model,
re-adding the inventory constraint under the already-used name raises PuLP's
overlapping-constraint-names error (PuLP's default `noOverlap`), carrying
the sanitized name (`setName` turns `'-'` into `'_'`) — so
`RetailProblem.__init__` raises instead of succeeding silently. -/
theorem duplicate_names_counterexample :
    format_string_model ("A b") = ("a-b")
    ∧ format_string_model ("a-b") = ("a-b")
    ∧ construct i10 = .error
        (.pulpError ("overlapping constraint names: constraint_inventory_a_b_r")) := by
  refine ⟨by decide, by decide, ?_⟩
  rw [construct_eq_of_ok i10 rfl]
  rfl

/-- C10 (amended): duplicate normalized names do collapse in the keyed
dictionaries — a later entry overwrites an earlier one (`makeDict` law, and
concretely the demand for `"a-b"` in `i10` is the later value `2`), and the
variable dictionaries hold one key per normalized name — but construction
does not succeed without error: whenever the formatted lure or retailer list
repeats a name, `__init__` fails (with a `DimensionMismatch` or, once the
model is being built, PuLP's overlapping-constraint-names error). -/
theorem duplicate_names_spec (i : RetailInput)
    (hdup : ¬ (format_list_strings i.lures).Nodup
      ∨ ¬ (format_list_strings i.retailers).Nodup) :
    (∀ P, construct i ≠ .ok P)
    ∧ (∀ (ks : List String) (vs : List ℚ) (k : String) (v : ℚ),
        ks.length = vs.length → makeDict1 (ks ++ [k]) (vs ++ [v]) k = some v)
    ∧ (buildProblem i10).num_lures_to_buy ("a-b") = 2
    ∧ pyDictKeys (buildProblem i10).lures = [("a-b")] := by
  refine ⟨?_, fun ks vs k v h => makeDict1_append_last ks vs k v h, by decide, by decide⟩
  intro P hP
  have hnodup_raw : ¬ (constraintNames (buildProblem i)).Nodup := by
    intro hn
    unfold constraintNames at hn
    rcases hdup with hdl | hdr
    · exact hdl (((hn.of_append_left).of_append_left).of_append_right).of_map
    · exact hdr ((hn.of_append_left).of_append_right).of_map
  have hnodup : ¬ ((constraintNames (buildProblem i)).map pulpSanitizeName).Nodup :=
    fun hn => hnodup_raw hn.of_map
  obtain ⟨s, hs⟩ := nameCheck_error (buildProblem i) hnodup
  rcases hc : checkDimensions i with e | u
  · rw [construct_eq_error_dim i e hc] at hP
    simp at hP
  · cases u
    rw [construct_eq_of_ok i hc, hs] at hP
    simp at hP

/-- Witness for C10 (amended) at `i10`: the later duplicate entry's demand
value `2` is the one stored. -/
theorem duplicate_names_spec_witness :
    (buildProblem i10).num_lures_to_buy ("a-b") = 2 :=
  (duplicate_names_spec i10 (Or.inl (by decide))).2.2.1

end RetailOpt
